import Mathlib

/-!
Shallow embedding of `src/server.js` (iBlack14/whatsapp-service): the
process-wide state variables, the adapter event handlers installed by
`setupClientEvents`, and the HTTP endpoint handlers, together with proofs
of the specification's claims about them.
-/

namespace WhatsappService

/-- Connection status strings used by `server.js`:
`disconnected | qr_pending | connected` (line 15). -/
inductive ConnectionStatus where
  | disconnected
  | qr_pending
  | connected
deriving DecidableEq

/-- Client identity record built in the `ready` handler (lines 89-93):
`{ name, phone, platform }`. -/
structure ClientInfo where
  name : String
  phone : String
  platform : String
deriving DecidableEq

/-- The process-wide mutable state of `server.js` (lines 14-17):
`qrCodeData`, `connectionStatus`, `clientInfo`, `isClientReady`. -/
structure ServiceState where
  qrCodeData : Option String
  connectionStatus : ConnectionStatus
  clientInfo : Option ClientInfo
  isClientReady : Bool
deriving DecidableEq

/-- Initial values of the state variables at process start (lines 14-17). -/
def initialState : ServiceState :=
  { qrCodeData := none
    connectionStatus := .disconnected
    clientInfo := none
    isClientReady := false }

/-- Adapter events handled by `setupClientEvents` (lines 66-125).
`qr` carries the result of `QRCode.toDataURL`: `some encoded` when the
encoding succeeded, `none` when it threw (the catch branch at line 78).
`ready` carries the optional identity fields read from `client.info`
(`pushname`, `wid.user`, `platform`), each possibly absent. -/
inductive AdapterEvent where
  | loading_screen (percent : Nat) (message : String)
  | qr (encoded : Option String)
  | ready (pushname : Option String) (widUser : Option String) (platform : Option String)
  | authenticated
  | auth_failure (msg : String)
  | disconnected (reason : String)
  | remote_session_saved
deriving DecidableEq

/-- The event reactor: the state update performed by each event callback in
`setupClientEvents` (lines 66-125), as a function on `ServiceState`.
The `qr` handler sets `connectionStatus` before the encoding attempt, and
stores the encoded image only when encoding succeeds (lines 73-81).
The `ready` handler defaults each missing identity field to "Unknown"
(lines 84-94). The `authenticated` handler only clears `qrCodeData`
(lines 97-101). The `auth_failure` handler sets status to disconnected and
clears `qrCodeData` (lines 104-108). The `disconnected` handler resets
status, ready flag, `qrCodeData` and `clientInfo` (lines 111-119). -/
def handleEvent (s : ServiceState) : AdapterEvent → ServiceState
  | .loading_screen _ _ => s
  | .qr encoded =>
      let s1 := { s with connectionStatus := .qr_pending }
      match encoded with
      | some data => { s1 with qrCodeData := some data }
      | none => s1
  | .ready pushname widUser platform =>
      { s with
        connectionStatus := .connected
        isClientReady := true
        qrCodeData := none
        clientInfo := some
          { name := pushname.getD "Unknown"
            phone := widUser.getD "Unknown"
            platform := platform.getD "Unknown" } }
  | .authenticated => { s with qrCodeData := none }
  | .auth_failure _ => { s with connectionStatus := .disconnected, qrCodeData := none }
  | .disconnected _ =>
      { s with
        connectionStatus := .disconnected
        isClientReady := false
        qrCodeData := none
        clientInfo := none }
  | .remote_session_saved => s

/-- State reached by running a sequence of adapter events from the initial
state. -/
def runEvents (events : List AdapterEvent) : ServiceState :=
  events.foldl handleEvent initialState

/-- The section-3 invariants of the spec, as stated by claim C1: at most one
of `qrCodeData`, `clientInfo` is non-null; connected implies `clientInfo`
non-null and `qrCodeData` null; disconnected implies both null. -/
def specInvariant (s : ServiceState) : Prop :=
  ¬(s.qrCodeData ≠ none ∧ s.clientInfo ≠ none) ∧
  (s.connectionStatus = .connected → s.clientInfo ≠ none ∧ s.qrCodeData = none) ∧
  (s.connectionStatus = .disconnected → s.qrCodeData = none ∧ s.clientInfo = none)

instance (s : ServiceState) : Decidable (specInvariant s) := by
  unfold specInvariant; infer_instance

/-- The part of the section-3 invariants that the code actually maintains:
connected implies `clientInfo` non-null and `qrCodeData` null, and a stored
QR payload implies status is `qr_pending`. The code never clears
`clientInfo` in the `qr` and `auth_failure` handlers, so `clientInfo` can
stay non-null while a QR payload is stored or while disconnected. -/
def amendedInvariant (s : ServiceState) : Prop :=
  (s.connectionStatus = .connected → s.clientInfo ≠ none ∧ s.qrCodeData = none) ∧
  (s.qrCodeData ≠ none → s.connectionStatus = .qr_pending)

instance (s : ServiceState) : Decidable (amendedInvariant s) := by
  unfold amendedInvariant; infer_instance

theorem amendedInvariant_handleEvent (s : ServiceState) (e : AdapterEvent)
    (h : amendedInvariant s) : amendedInvariant (handleEvent s e) := by
  obtain ⟨hconn, hqr⟩ := h
  cases e with
  | loading_screen p m => exact ⟨hconn, hqr⟩
  | qr encoded =>
      cases encoded <;> simp [handleEvent, amendedInvariant]
  | ready pushname widUser platform =>
      simp [handleEvent, amendedInvariant]
  | authenticated =>
      refine ⟨fun hc => ?_, fun hq => absurd rfl hq⟩
      exact ⟨(hconn hc).1, rfl⟩
  | auth_failure msg =>
      simp [handleEvent, amendedInvariant]
  | disconnected reason =>
      simp [handleEvent, amendedInvariant]
  | remote_session_saved => exact ⟨hconn, hqr⟩

theorem amendedInvariant_foldl (events : List AdapterEvent) :
    ∀ s : ServiceState, amendedInvariant s →
      amendedInvariant (events.foldl handleEvent s) := by
  induction events with
  | nil => intro s h; exact h
  | cons e rest ih =>
      intro s h
      exact ih (handleEvent s e) (amendedInvariant_handleEvent s e h)

theorem amendedInvariant_initialState : amendedInvariant initialState := by
  decide

/-! HTTP endpoint handlers. -/

/-- GET /api/status (lines 130-135): returns the current status and client
info snapshot. -/
def apiStatus (s : ServiceState) : ConnectionStatus × Option ClientInfo :=
  (s.connectionStatus, s.clientInfo)

/-- Response shape of GET /api/qr: status, qr field, and the client field,
which is present only on the connected branch. -/
structure QrResponse where
  status : ConnectionStatus
  qr : Option String
  client : Option (Option ClientInfo)
deriving DecidableEq

/-- GET /api/qr (lines 138-146): when connected, returns
`{ status: connected, qr: null, client: clientInfo }`; otherwise returns
`{ status, qr: qrCodeData }` with no client field. -/
def apiQr (s : ServiceState) : QrResponse :=
  if s.connectionStatus = .connected then
    { status := .connected, qr := none, client := some s.clientInfo }
  else
    { status := s.connectionStatus, qr := s.qrCodeData, client := none }

/-- Strip all non-digit characters: `phone.replace(/\D/g, '')` (line 162). -/
def stripNonDigits (s : String) : String :=
  ⟨s.data.filter Char.isDigit⟩

/-- Phone formatting of POST /api/send (lines 162-165): strip non-digits,
then prepend the Peru country code "51" when exactly 9 digits remain. -/
def formatPhone (phone : String) : String :=
  let digits := stripNonDigits phone
  if digits.length = 9 then "51" ++ digits else digits

/-- Destination identifier built at line 166: formatted phone plus the
`@c.us` domain suffix. -/
def chatIdOf (phone : String) : String :=
  formatPhone phone ++ "@c.us"

/-- Request body of POST /api/send: each field may be absent. -/
structure SendRequest where
  phone : Option String
  message : Option String
deriving DecidableEq

/-- JavaScript falsiness of a request string field (`!phone` at line 153):
true when the field is absent or the empty string. -/
def isMissing : Option String → Bool
  | none => true
  | some s => s.isEmpty

/-- Outcome of POST /api/send, up to the adapter call: `badRequest` is the
400 response, `notConnected` the 503 response, and `sendAttempt chatId msg`
records that `client.sendMessage(chatId, msg)` is invoked (exactly one
adapter call; the other outcomes make none). -/
inductive SendResult where
  | badRequest
  | notConnected
  | sendAttempt (chatId : String) (message : String)
deriving DecidableEq

/-- Number of adapter `sendMessage` calls an outcome performs. -/
def SendResult.adapterCalls : SendResult → Nat
  | .badRequest => 0
  | .notConnected => 0
  | .sendAttempt _ _ => 1

/-- POST /api/send handler (lines 149-182): validates presence of phone and
message first (line 153), then the connection check
`connectionStatus !== 'connected' || !isClientReady || !client` (line 157),
then formats the phone and calls the adapter. The handler never writes a
state variable, so the state passes through unchanged. -/
def apiSend (s : ServiceState) (clientExists : Bool) (req : SendRequest) :
    ServiceState × SendResult :=
  if isMissing req.phone || isMissing req.message then
    (s, .badRequest)
  else if s.connectionStatus ≠ .connected ∨ s.isClientReady = false ∨ clientExists = false then
    (s, .notConnected)
  else
    (s, .sendAttempt (chatIdOf (req.phone.getD "")) (req.message.getD ""))

/-- Last message of a chat as the adapter reports it: body may be absent
(`chat.lastMessage.body?.` at line 198). -/
structure LastMessage where
  body : Option String
  timestamp : Nat
  fromMe : Bool
deriving DecidableEq

/-- Chat object as the adapter reports it (fields read at lines 192-203). -/
structure Chat where
  idSerialized : String
  name : String
  isGroup : Bool
  unreadCount : Nat
  lastMessage : Option LastMessage
  timestamp : Nat
deriving DecidableEq

/-- ChatSummary projection built at lines 192-203; the last message body is
truncated to 100 characters by `substring(0, 100)`. -/
structure ChatSummary where
  id : String
  name : String
  isGroup : Bool
  unreadCount : Nat
  lastMessage : Option LastMessage
  timestamp : Nat
deriving DecidableEq

/-- Projection of a last message at lines 197-201: the body, when present,
is truncated by `substring(0, 100)` to its first 100 characters. -/
def truncateBody (m : LastMessage) : LastMessage :=
  { body := m.body.map fun b => ⟨b.data.take 100⟩
    timestamp := m.timestamp
    fromMe := m.fromMe }

/-- Per-chat mapping of the GET /api/chats handler (lines 192-203). -/
def summarizeChat (c : Chat) : ChatSummary :=
  { id := c.idSerialized
    name := c.name
    isGroup := c.isGroup
    unreadCount := c.unreadCount
    lastMessage := c.lastMessage.map truncateBody
    timestamp := c.timestamp }

/-- Outcome of GET /api/chats: the 503 response or the summarized list. -/
inductive ChatsResult where
  | notConnected
  | ok (chats : List ChatSummary)
deriving DecidableEq

/-- GET /api/chats handler (lines 185-211): connection check, then
`chats.slice(0, 30).map(...)` over the adapter's chat list. -/
def apiChats (s : ServiceState) (clientExists : Bool) (chats : List Chat) :
    ChatsResult :=
  if s.connectionStatus ≠ .connected ∨ s.isClientReady = false ∨ clientExists = false then
    .notConnected
  else
    .ok ((chats.take 30).map summarizeChat)

/-- POST /api/disconnect handler (lines 242-253). The argument models the
outcome of `if (client) await client.logout()`: `Except.error e` when the
logout call threw (jumping to the catch branch before any state write),
`Except.ok ()` when it returned or when `client` is null and the call is
skipped. Returns the new state, the HTTP status code, and the success
flag of the JSON body. -/
def apiDisconnect (s : ServiceState) (logoutResult : Except String Unit) :
    ServiceState × Nat × Bool :=
  match logoutResult with
  | .ok _ =>
      ({ s with connectionStatus := .disconnected, qrCodeData := none, clientInfo := none },
       200, true)
  | .error _ => (s, 500, false)

/-! Concrete states and data used by counterexamples and witnesses. -/

/-- A state of a connected, ready session, as reached after a `ready`
event. -/
def connectedState : ServiceState :=
  { qrCodeData := none
    connectionStatus := .connected
    clientInfo := some { name := "Alice", phone := "51987654321", platform := "android" }
    isClientReady := true }

/-- A connected state in which a stale QR payload is still stored. -/
def staleQrState : ServiceState :=
  { connectedState with qrCodeData := some "STALEQR" }

/-- A 150-character message body, longer than the 100-character cap. -/
def longBody : String :=
  ⟨List.replicate 150 'a'⟩

/-- A small adapter chat list whose first chat has a last-message body
longer than 100 characters. -/
def exampleChats : List Chat :=
  [ { idSerialized := "51911111111@c.us"
      name := "Alice"
      isGroup := false
      unreadCount := 2
      lastMessage := some { body := some longBody, timestamp := 1700000000, fromMe := false }
      timestamp := 1700000001 },
    { idSerialized := "51922222222-160000@g.us"
      name := "Team"
      isGroup := true
      unreadCount := 0
      lastMessage := none
      timestamp := 1600000000 } ]

/-! Claims. -/

/-- C1 counterexample: the section-3 invariants do not hold after every
event. After the trace `[ready, qr]` both `qrCodeData` and `clientInfo`
are non-null (the `qr` handler never clears `clientInfo`), and after
`[ready, qr, auth_failure]` the state is disconnected with `clientInfo`
still non-null. -/
theorem C1_invariant_counterexample :
    ¬ specInvariant (runEvents
        [.ready none none none, .qr (some "QRIMG")]) ∧
    ¬ specInvariant (runEvents
        [.ready none none none, .qr (some "QRIMG"), .auth_failure "failed"]) := by
  decide

/-- C1 amended: for every sequence of adapter events applied from the
initial state, after every event the state satisfies the invariants the
code actually maintains: status connected implies `clientInfo` non-null
and `qrCodeData` null, and a non-null `qrCodeData` implies status
`qr_pending`; but `clientInfo` may remain (stale) non-null while a QR
payload is stored or while disconnected. -/
theorem C1_invariant_amended (events : List AdapterEvent) :
    amendedInvariant (runEvents events) :=
  amendedInvariant_foldl events initialState amendedInvariant_initialState

/-- C2: the phone normalization of POST /api/send keeps exactly the digit
characters, prepends "51" precisely when 9 digits remain, appends the
`@c.us` suffix, and maps the three spec examples as stated. -/
theorem C2_phone_normalization (phone : String) :
    (∀ c ∈ (stripNonDigits phone).data, c.isDigit = true) ∧
    ((stripNonDigits phone).length = 9 →
      formatPhone phone = "51" ++ stripNonDigits phone) ∧
    ((stripNonDigits phone).length ≠ 9 →
      formatPhone phone = stripNonDigits phone) ∧
    chatIdOf phone = formatPhone phone ++ "@c.us" ∧
    formatPhone "987654321" = "51987654321" ∧
    formatPhone "51987654321" = "51987654321" ∧
    formatPhone "987-654-321" = "51987654321" := by
  refine ⟨?_, ?_, ?_, rfl, by decide, by decide, by decide⟩
  · intro c hc
    exact (List.mem_filter.mp hc).2
  · intro h
    unfold formatPhone
    rw [if_pos h]
  · intro h
    unfold formatPhone
    rw [if_neg h]

theorem C2_phone_normalization_witness :
    formatPhone "9-8-7-6-5-4-3-2-1" = "51" ++ stripNonDigits "9-8-7-6-5-4-3-2-1" :=
  (C2_phone_normalization "9-8-7-6-5-4-3-2-1").2.1 (by decide)

/-- C3 counterexample: handling a `qr` event does not clear `clientInfo`;
from a state with non-null `clientInfo` it stays non-null. -/
theorem C3_qr_counterexample :
    (handleEvent connectedState (.qr (some "QRIMG"))).clientInfo ≠ none := by
  decide

/-- C3 amended: handling `qr(payload)` sets status to `qr_pending` and
leaves `clientInfo` unchanged rather than clearing it, whether or not the
encoding succeeds; it stores the encoded image of the payload as the QR
payload when encoding succeeds, and leaves the stored payload unchanged
when encoding fails. -/
theorem C3_qr_amended (s : ServiceState) (encoded : Option String) (enc : String) :
    (handleEvent s (.qr encoded)).connectionStatus = .qr_pending ∧
    (handleEvent s (.qr encoded)).clientInfo = s.clientInfo ∧
    (handleEvent s (.qr (some enc))).qrCodeData = some enc ∧
    (handleEvent s (.qr none)).qrCodeData = s.qrCodeData :=
  ⟨by cases encoded <;> rfl, by cases encoded <;> rfl, rfl, rfl⟩

/-- C4 counterexample: handling `auth_failure` does not write
`isClientReady`; from a state with the flag true it stays true. -/
theorem C4_auth_failure_counterexample :
    (handleEvent connectedState (.auth_failure "auth error")).isClientReady = true := by
  decide

/-- C4 amended: handling `auth_failure(reason)` sets status to disconnected
and clears the QR payload, but leaves `isClientReady` unchanged (the
handler never writes the ready flag). -/
theorem C4_auth_failure_amended (s : ServiceState) (msg : String) :
    (handleEvent s (.auth_failure msg)).connectionStatus = .disconnected ∧
    (handleEvent s (.auth_failure msg)).qrCodeData = none ∧
    (handleEvent s (.auth_failure msg)).isClientReady = s.isClientReady ∧
    (handleEvent s (.auth_failure msg)).clientInfo = s.clientInfo :=
  ⟨rfl, rfl, rfl, rfl⟩

/-- C5: POST /api/disconnect resets the Status Tracker exactly when logout
does not throw: on success it resets status, QR payload and client info
and returns 200/success, on logout failure it returns 500 with the state
unchanged; and after a successful disconnect GET /api/status reports
disconnected with a null client. -/
theorem C5_disconnect (s : ServiceState) :
    apiDisconnect s (Except.ok ()) =
      ({ s with connectionStatus := .disconnected, qrCodeData := none, clientInfo := none },
       200, true) ∧
    (∀ e : String, apiDisconnect s (Except.error e) = (s, 500, false)) ∧
    apiStatus (apiDisconnect s (Except.ok ())).1 = (ConnectionStatus.disconnected, none) :=
  ⟨rfl, fun _ => rfl, rfl⟩

/-- C6: GET /api/qr in a connected state always answers with `qr = none`
and the client info, regardless of any stale stored QR payload. -/
theorem C6_qr_connected (s : ServiceState) (h : s.connectionStatus = .connected) :
    apiQr s = { status := .connected, qr := none, client := some s.clientInfo } := by
  unfold apiQr
  rw [if_pos h]

theorem C6_qr_connected_witness :
    apiQr staleQrState =
      { status := .connected, qr := none, client := some staleQrState.clientInfo } :=
  C6_qr_connected staleQrState rfl

/-- C7: POST /api/send answers 400 whenever the phone or the message field
is absent or empty, in every connection state and before any status
check. -/
theorem C7_send_missing_fields (s : ServiceState) (clientExists : Bool) (req : SendRequest)
    (h : isMissing req.phone = true ∨ isMissing req.message = true) :
    apiSend s clientExists req = (s, SendResult.badRequest) := by
  unfold apiSend
  rcases h with h | h <;> simp [h]

theorem C7_send_missing_fields_witness :
    apiSend connectedState true { phone := some "987654321", message := none } =
      (connectedState, SendResult.badRequest) :=
  C7_send_missing_fields connectedState true { phone := some "987654321", message := none }
    (Or.inr rfl)

/-- C8: POST /api/send with both fields present but status not connected
answers 503, performs no adapter `sendMessage` call, and leaves the state
unchanged. -/
theorem C8_send_not_connected (s : ServiceState) (clientExists : Bool) (req : SendRequest)
    (hp : isMissing req.phone = false) (hm : isMissing req.message = false)
    (hs : s.connectionStatus ≠ .connected) :
    apiSend s clientExists req = (s, SendResult.notConnected) ∧
    (apiSend s clientExists req).2.adapterCalls = 0 ∧
    (apiSend s clientExists req).1 = s := by
  unfold apiSend
  simp [hp, hm, hs, SendResult.adapterCalls]

theorem C8_send_not_connected_witness :
    apiSend initialState true { phone := some "987654321", message := some "hola" } =
      (initialState, SendResult.notConnected) :=
  (C8_send_not_connected initialState true
      { phone := some "987654321", message := some "hola" }
      (by decide) (by decide) (by decide)).1

theorem summarizeChat_body_length (c : Chat) (lm : LastMessage) (b : String)
    (hlm : (summarizeChat c).lastMessage = some lm) (hb : lm.body = some b) :
    b.length ≤ 100 := by
  unfold summarizeChat at hlm
  cases hlmc : c.lastMessage with
  | none => rw [hlmc] at hlm; exact Option.noConfusion hlm
  | some m =>
      rw [hlmc] at hlm
      have hlm2 : some (truncateBody m) = some lm := hlm
      injection hlm2 with h
      subst h
      have hb2 : (m.body.map fun s => (⟨s.data.take 100⟩ : String)) = some b := hb
      cases hbm : m.body with
      | none => rw [hbm] at hb2; exact Option.noConfusion hb2
      | some b0 =>
          rw [hbm] at hb2
          have hb3 : some (⟨b0.data.take 100⟩ : String) = some b := hb2
          injection hb3 with h2
          subst h2
          show (b0.data.take 100).length ≤ 100
          rw [List.length_take]
          exact min_le_left _ _

/-- C9: GET /api/chats in a connected, ready state returns the summaries of
the first 30 chats of the adapter's list; the result has at most 30
entries and every present last-message body is truncated to at most 100
characters. -/
theorem C9_chats (s : ServiceState) (clientExists : Bool) (chats : List Chat)
    (hs : s.connectionStatus = .connected) (hr : s.isClientReady = true)
    (hc : clientExists = true) :
    apiChats s clientExists chats = .ok ((chats.take 30).map summarizeChat) ∧
    ((chats.take 30).map summarizeChat).length ≤ 30 ∧
    ∀ cs ∈ (chats.take 30).map summarizeChat, ∀ lm, cs.lastMessage = some lm →
      ∀ b, lm.body = some b → b.length ≤ 100 := by
  refine ⟨?_, ?_, ?_⟩
  · unfold apiChats
    simp [hs, hr, hc]
  · simp [List.length_map, List.length_take]
  · intro cs hcs lm hlm b hb
    rw [List.mem_map] at hcs
    obtain ⟨c, _, rfl⟩ := hcs
    exact summarizeChat_body_length c lm b hlm hb

theorem C9_chats_witness :
    apiChats connectedState true exampleChats =
      ChatsResult.ok ((exampleChats.take 30).map summarizeChat) :=
  (C9_chats connectedState true exampleChats rfl rfl rfl).1

/-- C10: the success path of POST /api/disconnect never writes
`isClientReady` (it stays exactly what it was, in particular true when the
disconnect is initiated while ready), and it becomes false only when the
adapter's `disconnected` event is handled afterwards. -/
theorem C10_disconnect_ready_frame (s : ServiceState) :
    (apiDisconnect s (Except.ok ())).1.isClientReady = s.isClientReady ∧
    ∀ reason : String,
      (handleEvent (apiDisconnect s (Except.ok ())).1
          (.disconnected reason)).isClientReady = false :=
  ⟨rfl, fun _ => rfl⟩

end WhatsappService
